import Mathlib

/-!
Shallow embedding of the volatility-prediction data-download utilities
(`download_data.py`, `utils/io.py`, `utils/seeding.py`, `utils/logger.py`)
and proofs about the behaviour the specification claims.

Conventions of the embedding:
* A pandas `DataFrame` is modelled by its index values, the (optional) index
  name, and its named columns; cell values are kept abstract as strings.
* Machine effects (log lines, file writes) are an explicit trace.
* Python exceptions are `Except`; a `try/except` of the source becomes a
  `match` on the `Except` value at exactly the same boundary.
* Wall-clock reads (`datetime.now().strftime(...)`) are an explicit argument.
* Python's built-in `hash` is an explicit argument `h : String → Int`
  (fixed for one process run).
-/

namespace VolPred

/-- Model of a pandas DataFrame as used by this repository: an optional index
name (`df.index.name`), the index values, and named columns of cell data. -/
structure DataFrame where
  indexName : Option String
  index : List String
  cols : List (String × List String)
deriving DecidableEq

/-- Number of rows, `len(df)`. -/
def DataFrame.len (df : DataFrame) : Nat := df.index.length

/-- Emptiness test `df.empty` (true when the frame has no rows). -/
def DataFrame.isEmptyDf (df : DataFrame) : Bool := df.index.isEmpty

/-- Python `str.endswith`: the suffix test on the character data. -/
def endswith (s suffix : String) : Bool := suffix.data.isSuffixOf s.data

/-- Python truthiness of `df.index.name`: `None` and the empty string are
falsy, every other string is truthy. -/
def truthyName : Option String → Bool
  | none => false
  | some s => !s.isEmpty

/-- utils/io.py `generate_filename` (lines 31-54).  `now_ts` stands for
`datetime.now().strftime("%Y%m%d_%H%M%S")`, the wall-clock read. -/
def generate_filename (ticker period : String) (custom_filename : Option String)
    (now_ts : String) : String :=
  match custom_filename with
  | some custom => if endswith custom (".csv") then custom else custom ++ (".csv")
  | none => ticker ++ ("_") ++ period ++ ("_") ++ now_ts ++ (".csv")

/-- Columns emitted by `df_to_save.to_csv(filepath, index=False, ...)` after
the conditional `reset_index` in `save_dataframe_to_csv` (io.py lines 98-107):
the index is materialised into a leading column only when `df.index.name` is
truthy, and the write itself never emits an index column. -/
def csv_columns_written (df : DataFrame) : List (String × List String) :=
  if truthyName df.indexName then
    ((df.indexName.getD ("index")), df.index) :: df.cols
  else
    df.cols

/-- utils/io.py `save_dataframe_to_csv` (lines 57-109): builds the file path
from the output directory and the generated filename, and writes the columns
of `csv_columns_written`.  Directory creation is an idempotent filesystem
effect with no bearing on the claims and is elided; `os.path.join` is
modelled as posix path concatenation. -/
def save_dataframe_to_csv (df : DataFrame) (ticker period output_dir : String)
    (filename : Option String) (now_ts : String) :
    String × List (String × List String) :=
  let csv_filename := generate_filename ticker period filename now_ts
  let filepath := output_dir ++ ("/") ++ csv_filename
  (filepath, csv_columns_written df)

/-- An on-disk file as seen by the read/info helpers: the content a
`pd.read_csv` of it would yield, plus the stat metadata used by
`get_data_file_info`. -/
structure FileEntry where
  data : DataFrame
  size_bytes : Nat
  ctime : String
deriving DecidableEq

/-- The filesystem boundary: which path holds which file.  `os.path.exists p`
is `(fs p).isSome`. -/
def FileSystem : Type := String → Option FileEntry

/-- Errors surfaced by the io helpers. -/
inductive IOErr where
  | fileNotFound (msg : String)
  | otherErr (msg : String)
deriving DecidableEq

/-- Recogniser for the not-found condition of an io result. -/
def isFnf {α : Type} : Except IOErr α → Bool
  | Except.error (IOErr.fileNotFound _) => true
  | _ => false

/-- utils/io.py `load_csv_data` (lines 177-196): raises `FileNotFoundError`
when the path does not exist, otherwise reads the file. -/
def load_csv_data (fs : FileSystem) (filepath : String) : Except IOErr DataFrame :=
  match fs filepath with
  | none => Except.error (IOErr.fileNotFound (("File not found: ") ++ filepath))
  | some entry => Except.ok entry.data

/-- `os.path.basename` for posix paths: the part after the last slash. -/
def basename (p : String) : String := (p.splitOn ("/")).getLastD p

/-- The dictionary returned by `get_data_file_info`. -/
structure FileInfo where
  filename : String
  filepath : String
  size_bytes : Nat
  created : String
  rows : Nat
  columns : Nat
  column_names : List String
deriving DecidableEq

/-- utils/io.py `get_data_file_info` (lines 199-227): raises
`FileNotFoundError` when the path does not exist, otherwise reads the file
and reports its metadata.  The megabyte conversion of the size is a float
display detail and the raw byte count is reported instead. -/
def get_data_file_info (fs : FileSystem) (filepath : String) : Except IOErr FileInfo :=
  match fs filepath with
  | none => Except.error (IOErr.fileNotFound (("File not found: ") ++ filepath))
  | some entry =>
      Except.ok
        { filename := basename filepath
          filepath := filepath
          size_bytes := entry.size_bytes
          created := entry.ctime
          rows := entry.data.len
          columns := entry.data.cols.length
          column_names := entry.data.cols.map Prod.fst }

/-- Python dict insertion `d[k] = v` on an association list that keeps
insertion order: an existing key is overwritten in place, a new key is
appended at the end. -/
def dictInsert {α : Type} (k : String) (v : α) :
    List (String × α) → List (String × α)
  | [] => [(k, v)]
  | (k0, v0) :: rest =>
      if k0 = k then (k0, v) :: rest else (k0, v0) :: dictInsert k v rest

/-- Python `d.get(k)`: the value stored at the first occurrence of `k`. -/
def dictGet {α : Type} (l : List (String × α)) (k : String) : Option α :=
  match l with
  | [] => none
  | (k0, v0) :: rest => if k0 = k then some v0 else dictGet rest k

/-- The mutable state of the `SeedManager` singleton instance
(utils/seeding.py lines 122-190): the active seed `_seed` and the
experiment-name-to-derived-seed dictionary `_experiment_seeds`. -/
structure SeedState where
  seed : Int
  experiment_seeds : List (String × Int)
deriving DecidableEq

/-- `SeedManager.__init__` (seeding.py lines 137-140).  Because `__new__`
returns the shared singleton instance and Python then always calls
`__init__` on it, this body runs on every `SeedManager()` expression,
whatever state the instance held before. -/
def SeedManager_init (_s : SeedState) : SeedState :=
  { seed := 42, experiment_seeds := [] }

/-- `SeedManager.set_seed` (seeding.py lines 142-152); the call into
`set_random_seed` is an external effect and does not touch this state. -/
def SeedManager_set_seed (s : SeedState) (seed : Int) : SeedState :=
  { s with seed := seed }

/-- `SeedManager.get_seed` (seeding.py lines 154-156). -/
def SeedManager_get_seed (s : SeedState) : Int := s.seed

/-- `SeedManager.reset` (seeding.py lines 186-190). -/
def SeedManager_reset (_s : SeedState) : SeedState :=
  { seed := 42, experiment_seeds := [] }

/-- `SeedManager.create_experiment_seed` (seeding.py lines 158-177):
`hash(f"{experiment_name}_{self._seed}") % (2 ** 32 - 1)`, stored into the
experiment dictionary and returned.  `h` is the process's `hash` function. -/
def create_experiment_seed (h : String → Int) (s : SeedState)
    (experiment_name : String) : Int × SeedState :=
  let experiment_seed := (h (experiment_name ++ ("_") ++ toString s.seed)) % (2 ^ 32 - 1)
  (experiment_seed,
   { s with experiment_seeds := dictInsert experiment_name experiment_seed s.experiment_seeds })

/-- `SeedManager.get_experiment_seed` (seeding.py lines 179-184):
`self._experiment_seeds.get(name, self.create_experiment_seed(name))`.
Python evaluates the fallback argument eagerly, so `create_experiment_seed`
runs, and updates the dictionary, before `.get` looks the name up. -/
def get_experiment_seed (h : String → Int) (s : SeedState)
    (experiment_name : String) : Int × SeedState :=
  let fallback := create_experiment_seed h s experiment_name
  match dictGet fallback.2.experiment_seeds experiment_name with
  | some v => (v, fallback.2)
  | none => (fallback.1, fallback.2)

/-- `SeedManager.get_experiment_seed` instrumented with the list of hash
derivations the call performs: each run of the `create_experiment_seed`
body contributes one entry.  Same control flow as `get_experiment_seed`. -/
def get_experiment_seed_traced (h : String → Int) (s : SeedState)
    (experiment_name : String) : Int × SeedState × List String :=
  let fallback := create_experiment_seed h s experiment_name
  match dictGet fallback.2.experiment_seeds experiment_name with
  | some v => (v, fallback.2, [experiment_name])
  | none => (fallback.1, fallback.2, [experiment_name])

/-- `get_reproducible_config` (seeding.py lines 239-255): evaluates
`SeedManager().get_seed()` — the `SeedManager()` expression re-runs
`__init__` on the singleton — and reads two environment variables.  Returns
the reported seed and the two environment strings, together with the
singleton state after the call. -/
def get_reproducible_config (s : SeedState)
    (pythonhashseed deterministic_ops : String) :
    (Int × String × String) × SeedState :=
  let s2 := SeedManager_init s
  ((SeedManager_get_seed s2, pythonhashseed, deterministic_ops), s2)

/-- Availability/health of the seeding backends whose calls the source wraps
in `try/except Exception: pass` (seeding.py lines 32-47). -/
structure Backends where
  tfOk : Bool
  torchOk : Bool
deriving DecidableEq

/-- One observable action of `set_random_seed`. -/
inductive SeedEffect where
  | pyRandomSeed (seed : Int)
  | npRandomSeed (seed : Int)
  | tfSetSeed (seed : Int)
  | torchSeed (seed : Int)
  | setEnv (name value : String)
deriving DecidableEq

/-- External boundary of `np.random.seed`: it raises `ValueError` unless
`0 ≤ seed < 2^32` (the call in seeding.py line 30 is not guarded). -/
def np_random_seed_ok (seed : Int) : Bool :=
  decide (0 ≤ seed) && decide (seed < 2 ^ 32)

/-- utils/seeding.py `set_random_seed` (lines 14-51).  `random.seed` accepts
any int and is unguarded; `np.random.seed` is unguarded and raises on an
out-of-range seed, which then propagates; the TensorFlow and PyTorch blocks
are each wrapped in `try/except Exception: pass`, so their failures are
swallowed; finally the two environment variables are set. -/
def set_random_seed (b : Backends) (seed : Int) : Except String (List SeedEffect) :=
  let effs0 := [SeedEffect.pyRandomSeed seed]
  if np_random_seed_ok seed then
    let effs1 := effs0 ++ [SeedEffect.npRandomSeed seed]
    let effs2 := if b.tfOk then effs1 ++ [SeedEffect.tfSetSeed seed] else effs1
    let effs3 := if b.torchOk then effs2 ++ [SeedEffect.torchSeed seed] else effs2
    Except.ok (effs3 ++
      [SeedEffect.setEnv ("PYTHONHASHSEED") (toString seed),
       SeedEffect.setEnv ("TF_DETERMINISTIC_OPS") ("1")])
  else
    Except.error ("ValueError: Seed must be between 0 and 2**32 - 1")

/-- The environment-variable assignments contained in an effect trace. -/
def setEnvEffects : List SeedEffect → List (String × String)
  | [] => []
  | SeedEffect.setEnv n v :: rest => (n, v) :: setEnvEffects rest
  | _ :: rest => setEnvEffects rest

/-- Whether an `Except` result is a normal return. -/
def isOkE {ε α : Type} : Except ε α → Bool
  | Except.ok _ => true
  | Except.error _ => false

/-- The environment-variable assignments of a completed `set_random_seed`
run, `none` when the call raised. -/
def envPairsOf : Except String (List SeedEffect) → Option (List (String × String))
  | Except.ok effs => some (setEnvEffects effs)
  | Except.error _ => none

/-- utils/logger.py `DataLogger._setup_file_handler` (lines 79-89): the log
file path is `os.path.join(log_dir, f"data_download_{timestamp}.log")` with
`timestamp = datetime.now().strftime("%Y%m%d")`.  The logger's construction
name is taken as an argument to show it plays no part. -/
def DataLogger_log_file (log_dir : String) (_name : String) (today : String) : String :=
  log_dir ++ ("/") ++ ("data_download_") ++ today ++ (".log")

/-- utils/logger.py `setup_logging` file handler path (lines 168-174):
`os.path.join(log_dir, f"{name}_{timestamp}.log")`. -/
def setup_logging_log_file (log_dir name today : String) : String :=
  log_dir ++ ("/") ++ name ++ ("_") ++ today ++ (".log")

/-- Outcome of the remote call `yf.Ticker(ticker).history(...)`: either a
DataFrame (possibly empty) or a raised exception with its message. -/
inductive FetchOutcome where
  | success (df : DataFrame)
  | raised (msg : String)

/-- The external boundary of one batch run: what the remote fetch does for
each ticker, whether the CSV persistence of a ticker's frame succeeds, and
whether the combined-Excel write succeeds.  Period and interval are fixed
for the run, so outcomes are indexed by ticker alone. -/
structure DownloadEnv where
  fetch : String → FetchOutcome
  saveOk : String → Bool
  excelOk : Bool

/-- One observable action of the downloader: a logger call or a file write. -/
inductive Effect where
  | logStart (ticker period interval : String)
  | logWarnNoData (ticker : String)
  | fileWrite (path : String)
  | logComplete (ticker : String) (rows : Nat) (path : String)
  | logStats (ticker : String) (rows : Nat) (columns : List String)
  | logError (ticker msg : String)
  | logSeparator
  | excelWrite (path : String) (sheets : List String)
  | logSuccessExcel (path : String)
  | logErrorExcel (msg : String)
deriving DecidableEq

/-- The CSV persistence step of `download_single_stock` as a fallible
operation: `save_dataframe_to_csv` either returns the file path or raises. -/
def trySave (env : DownloadEnv) (df : DataFrame)
    (ticker period output_dir : String) (filename : Option String)
    (now_ts : String) : Except String String :=
  if env.saveOk ticker then
    Except.ok (save_dataframe_to_csv df ticker period output_dir filename now_ts).1
  else
    Except.error ("save failed")

/-- download_data.py `StockDataDownloader.download_single_stock`
(lines 40-95), with logging enabled (the default).  The whole body is one
`try` block: a raise from the fetch or from the persistence is caught at
this boundary, logged as a download error, and turned into `None`.  An
empty fetch result is logged as a warning and returns `None` before any
file write.  Returns the Python return value and the effect trace. -/
def download_single_stock (env : DownloadEnv)
    (ticker period interval : String) (filename : Option String)
    (output_dir now_ts : String) : Option DataFrame × List Effect :=
  let start := [Effect.logStart ticker period interval]
  match env.fetch ticker with
  | FetchOutcome.raised msg =>
      (none, start ++ [Effect.logError ticker msg])
  | FetchOutcome.success df =>
      if df.isEmptyDf then
        (none, start ++ [Effect.logWarnNoData ticker])
      else
        match trySave env df ticker period output_dir filename now_ts with
        | Except.error msg =>
            (none, start ++ [Effect.logError ticker msg])
        | Except.ok path =>
            (some df,
             start ++
               [Effect.fileWrite path,
                Effect.logComplete ticker df.len path,
                Effect.logStats ticker df.len (df.cols.map Prod.fst)])

/-- Per-ticker accumulation step of `download_multiple_stocks`
(download_data.py lines 126-132): download one ticker, insert the frame into
the results dict when the return value is not `None`, log a separator. -/
def batch_step (env : DownloadEnv) (period interval output_dir now_ts : String)
    (acc : List (String × DataFrame) × List Effect) (ticker : String) :
    List (String × DataFrame) × List Effect :=
  ((match (download_single_stock env ticker period interval none output_dir now_ts).1 with
    | some df => dictInsert ticker df acc.1
    | none => acc.1),
   acc.2 ++ (download_single_stock env ticker period interval none output_dir now_ts).2 ++
     [Effect.logSeparator])

/-- The combined-Excel write (download_data.py lines 135-146) as a fallible
operation: `save_multiple_stocks_to_excel` either returns the workbook path
or raises. -/
def combined_excel_op (env : DownloadEnv) (period output_dir : String) :
    Except String String :=
  if env.excelOk then
    Except.ok (output_dir ++ ("/") ++ ("combined_stocks_") ++ period ++ (".xlsx"))
  else
    Except.error ("excel failed")

/-- download_data.py `StockDataDownloader.download_multiple_stocks`
(lines 97-148): fold the per-ticker step over the input list starting from
an empty dict, then, when requested and at least one ticker succeeded,
attempt the combined-Excel write inside its own `try/except`, which logs
but never alters the results dict. -/
def download_multiple_stocks (env : DownloadEnv) (tickers : List String)
    (period interval output_dir now_ts : String)
    (save_combined_excel : Bool) :
    List (String × DataFrame) × List Effect :=
  let r := tickers.foldl (batch_step env period interval output_dir now_ts) ([], [])
  if save_combined_excel && !r.1.isEmpty then
    match combined_excel_op env period output_dir with
    | Except.ok path =>
        (r.1, r.2 ++ [Effect.excelWrite path (r.1.map Prod.fst),
                      Effect.logSuccessExcel path])
    | Except.error msg =>
        (r.1, r.2 ++ [Effect.logErrorExcel msg])
  else r

/-- A ticker counts as successful in a batch run when its fetch returns a
non-empty frame and its persistence succeeds. -/
def succeeds (env : DownloadEnv) (ticker : String) : Bool :=
  match env.fetch ticker with
  | FetchOutcome.raised _ => false
  | FetchOutcome.success df => !df.isEmptyDf && env.saveOk ticker

/-- The frame a ticker's fetch produced (junk value on a raised fetch). -/
def fetchedDf (env : DownloadEnv) (ticker : String) : DataFrame :=
  match env.fetch ticker with
  | FetchOutcome.success df => df
  | FetchOutcome.raised _ => { indexName := none, index := [], cols := [] }

/-- Keys of an association-list dictionary, in insertion order. -/
def keys {α : Type} (l : List (String × α)) : List String := l.map Prod.fst

/-! Concrete fixtures used to evaluate the theorems on explicit inputs. -/

/-- A one-row frame as a fetch would return it. -/
def dfNonEmpty : DataFrame :=
  { indexName := some ("Date")
    index := [("2024-01-02 00:00:00")]
    cols := [(("Close"), [("101.0")])] }

/-- A frame with zero rows, as an empty fetch returns it. -/
def dfEmpty : DataFrame :=
  { indexName := some ("Date"), index := [], cols := [(("Close"), [])] }

/-- Environment in which every fetch succeeds with the same one-row frame. -/
def envAllOk : DownloadEnv :=
  { fetch := fun _ => FetchOutcome.success dfNonEmpty
    saveOk := fun _ => true
    excelOk := true }

/-- Environment in which the ticker B raises during fetch and every other
ticker succeeds. -/
def envBFails : DownloadEnv :=
  { fetch := fun t =>
      if t = ("B") then FetchOutcome.raised ("boom") else FetchOutcome.success dfNonEmpty
    saveOk := fun _ => true
    excelOk := true }

/-- Environment in which the ticker E fetches an empty frame and every other
ticker succeeds. -/
def envEEmpty : DownloadEnv :=
  { fetch := fun t =>
      if t = ("E") then FetchOutcome.success dfEmpty else FetchOutcome.success dfNonEmpty
    saveOk := fun _ => true
    excelOk := true }

/-- A concrete stored file. -/
def entryA : FileEntry :=
  { data := dfNonEmpty, size_bytes := 128, ctime := ("2024-01-02 00:00:00") }

/-- A filesystem holding exactly one file. -/
def fsOne : FileSystem := fun q => if q = ("a.csv") then some entryA else none

/-- A concrete stand-in for the process hash function. -/
def hashLen : String → Int := fun str => (str.length : Int)

/-! General lemmas about the embedding, shared by the claim theorems. -/

/-- Appending a suffix to any string makes `endswith` hold for it. -/
theorem endswith_append (c s : String) : endswith (c ++ s) s = true := by
  simp [endswith]

/-- Looking up the key just inserted finds the inserted value. -/
theorem dictGet_dictInsert_self {α : Type} (k : String) (v : α)
    (l : List (String × α)) : dictGet (dictInsert k v l) k = some v := by
  induction l with
  | nil => simp [dictInsert, dictGet]
  | cons hd tl ih =>
      obtain ⟨k0, v0⟩ := hd
      by_cases hk : k0 = k
      · simp [dictInsert, dictGet, hk]
      · simp [dictInsert, dictGet, hk, ih]

/-- Re-inserting the value a key already holds leaves the dict unchanged. -/
theorem dictInsert_of_get_eq {α : Type} (k : String) (v : α)
    (l : List (String × α)) (hv : dictGet l k = some v) :
    dictInsert k v l = l := by
  induction l with
  | nil => simp [dictGet] at hv
  | cons hd tl ih =>
      obtain ⟨k0, v0⟩ := hd
      by_cases hk : k0 = k
      · simp [dictGet, hk] at hv
        simp [dictInsert, hk, hv]
      · simp [dictGet, hk] at hv
        simp [dictInsert, hk, ih hv]

/-- Membership in the keys of a dict after an insertion. -/
theorem mem_keys_dictInsert {α : Type} (a k : String) (v : α)
    (l : List (String × α)) :
    a ∈ keys (dictInsert k v l) ↔ a = k ∨ a ∈ keys l := by
  induction l with
  | nil => simp [dictInsert, keys]
  | cons hd tl ih =>
      obtain ⟨k0, v0⟩ := hd
      by_cases hk : k0 = k
      · subst hk
        simp [dictInsert, keys]
      · simp only [dictInsert, if_neg hk, keys, List.map_cons, List.mem_cons] at *
        tauto

/-- Inserting a fresh key appends it at the end of the dict. -/
theorem dictInsert_append_of_not_mem {α : Type} (k : String) (v : α)
    (l : List (String × α)) (hk : k ∉ keys l) :
    dictInsert k v l = l ++ [(k, v)] := by
  induction l with
  | nil => simp [dictInsert]
  | cons hd tl ih =>
      obtain ⟨k0, v0⟩ := hd
      simp only [keys, List.map_cons, List.mem_cons] at hk
      push_neg at hk
      have hne : ¬k0 = k := fun hh => hk.1 hh.symm
      simp [dictInsert, hne, ih (by simpa [keys] using hk.2)]

/-- A list splits into the elements satisfying a boolean predicate and the
elements falsifying it. -/
theorem length_filter_bool {α : Type} (p : α → Bool) (l : List α) :
    (l.filter p).length + (l.filter (fun a => !(p a))).length = l.length := by
  induction l with
  | nil => simp
  | cons a tl ih =>
      cases hp : p a <;> simp [List.filter_cons, hp] <;> omega

/-- The return value of `download_single_stock` is `some` exactly on the
successful tickers, and then carries the fetched frame. -/
theorem download_single_stock_fst (env : DownloadEnv)
    (ticker period interval output_dir now_ts : String) (fn : Option String) :
    (download_single_stock env ticker period interval fn output_dir now_ts).1 =
      (if succeeds env ticker then some (fetchedDf env ticker) else none) := by
  unfold download_single_stock succeeds fetchedDf trySave
  cases hf : env.fetch ticker with
  | raised msg => simp
  | success df =>
      cases he : df.isEmptyDf <;> cases hs : env.saveOk ticker <;> simp [he, hs]

/-- The results dict of `download_multiple_stocks` is the one accumulated by
the per-ticker fold; the combined-Excel step never changes it. -/
theorem download_multiple_stocks_fst (env : DownloadEnv) (tickers : List String)
    (period interval output_dir now_ts : String) (ex : Bool) :
    (download_multiple_stocks env tickers period interval output_dir now_ts ex).1 =
      (tickers.foldl (batch_step env period interval output_dir now_ts) ([], [])).1 := by
  by_cases hc : (ex && !(List.foldl (batch_step env period interval output_dir now_ts)
      ([], []) tickers).1.isEmpty) = true
  · cases hop : combined_excel_op env period output_dir <;>
      simp [download_multiple_stocks, hop, hc]
  · simp [download_multiple_stocks, hc]

/-- A ticker that does not succeed never enters the accumulated results. -/
theorem not_mem_keys_foldl (env : DownloadEnv)
    (period interval output_dir now_ts t : String)
    (hs : succeeds env t = false) :
    ∀ (tickers : List String) (acc : List (String × DataFrame) × List Effect),
      t ∉ keys acc.1 →
      t ∉ keys ((tickers.foldl (batch_step env period interval output_dir now_ts) acc).1) := by
  intro tickers
  induction tickers with
  | nil => intro acc hacc; simpa using hacc
  | cons u rest ih =>
      intro acc hacc
      rw [List.foldl_cons]
      apply ih
      have hfst := download_single_stock_fst env u period interval output_dir now_ts none
      cases hr : (download_single_stock env u period interval none output_dir now_ts).1 with
      | none => simpa [batch_step, hr] using hacc
      | some df =>
          rw [hr] at hfst
          have hu : succeeds env u = true := by
            cases hsu : succeeds env u
            · rw [hsu] at hfst; simp at hfst
            · rfl
          have htu : t ≠ u := by
            intro hh
            rw [hh, hu] at hs
            cases hs
          simp only [batch_step, hr]
          intro hmem
          rcases (mem_keys_dictInsert t u df acc.1).mp hmem with h1 | h2
          · exact htu h1
          · exact hacc h2

/-- Accumulation of a batch over pairwise-distinct tickers disjoint from the
accumulator: the results are the accumulator followed by one entry per
successful ticker, in input order. -/
theorem foldl_batch_eq (env : DownloadEnv)
    (period interval output_dir now_ts : String) :
    ∀ (tickers : List String) (acc : List (String × DataFrame) × List Effect),
      tickers.Nodup →
      (∀ t ∈ tickers, t ∉ keys acc.1) →
      ((tickers.foldl (batch_step env period interval output_dir now_ts) acc).1 =
        acc.1 ++ (tickers.filter (fun t => succeeds env t)).map
          (fun t => (t, fetchedDf env t))) := by
  intro tickers
  induction tickers with
  | nil => intro acc _ _; simp
  | cons u rest ih =>
      intro acc hnd hdisj
      rw [List.foldl_cons]
      have hnd1 : rest.Nodup := (List.nodup_cons.mp hnd).2
      have hun : u ∉ rest := (List.nodup_cons.mp hnd).1
      have hu_not : u ∉ keys acc.1 := hdisj u (List.mem_cons_self u rest)
      have hfst := download_single_stock_fst env u period interval output_dir now_ts none
      cases hsu : succeeds env u
      · have hnone : (download_single_stock env u period interval none output_dir now_ts).1 = none := by
          rw [hfst, hsu]; rfl
        have hstep : (batch_step env period interval output_dir now_ts acc u).1 = acc.1 := by
          simp [batch_step, hnone]
        rw [ih (batch_step env period interval output_dir now_ts acc u) hnd1
              (by intro t ht; rw [hstep]; exact hdisj t (List.mem_cons_of_mem u ht))]
        simp [hstep, List.filter_cons, hsu]
      · have hsome : (download_single_stock env u period interval none output_dir now_ts).1 =
            some (fetchedDf env u) := by
          rw [hfst, hsu]; rfl
        have hstep : (batch_step env period interval output_dir now_ts acc u).1 =
            acc.1 ++ [(u, fetchedDf env u)] := by
          simp [batch_step, hsome, dictInsert_append_of_not_mem u (fetchedDf env u) acc.1 hu_not]
        rw [ih (batch_step env period interval output_dir now_ts acc u) hnd1 ?_]
        · rw [hstep]
          simp [List.filter_cons, hsu]
        · intro t ht
          rw [hstep]
          simp only [keys, List.map_append, List.mem_append, List.map_cons, List.map_nil,
            List.mem_cons, List.not_mem_nil]
          push_neg
          refine ⟨fun hmem => hdisj t (List.mem_cons_of_mem u ht) (by simpa [keys] using hmem), ?_, fun hf => hf⟩
          intro hh
          exact hun (hh ▸ ht)

/-! Claim theorems. -/

/-- C5: for every ticker, period and optional custom filename, a supplied
custom filename is returned with the suffix .csv appended exactly when it is
missing, so the output always ends in .csv; with no custom filename the
result is the pattern ticker_period_timestamp.csv built from the wall-clock
timestamp taken at write time. -/
theorem generate_filename_spec (ticker period ts c : String) :
    endswith (generate_filename ticker period (some c) ts) (".csv") = true
  ∧ generate_filename ticker period (some c) ts =
      (if endswith c (".csv") then c else c ++ (".csv"))
  ∧ generate_filename ticker period none ts =
      ticker ++ ("_") ++ period ++ ("_") ++ ts ++ (".csv") := by
  refine ⟨?_, rfl, rfl⟩
  by_cases hc : endswith c (".csv") = true
  · simp [generate_filename, hc]
  · simp [generate_filename, hc, endswith_append]

/-- C10: for a DataFrame whose index carries no name, save_dataframe_to_csv
writes exactly the column data; the index values are omitted because the
index is materialised into a column only when its name is truthy and the
write itself never emits an index column. -/
theorem save_csv_unnamed_index_omitted (df : DataFrame)
    (ticker period output_dir now_ts : String) (fn : Option String)
    (h : df.indexName = none) :
    (save_dataframe_to_csv df ticker period output_dir fn now_ts).2 = df.cols := by
  simp [save_dataframe_to_csv, csv_columns_written, truthyName, h]

/-- Witness for C10 at a concrete unnamed-index frame. -/
theorem save_csv_unnamed_index_omitted_witness :
    ({ indexName := none, index := [("2024-01-02")],
       cols := [(("Close"), [("101.0")])] } : DataFrame).indexName = none
  ∧ (save_dataframe_to_csv
      { indexName := none, index := [("2024-01-02")], cols := [(("Close"), [("101.0")])] }
      ("AAPL") ("1y") ("d") none ("ts")).2 = [(("Close"), [("101.0")])] :=
  ⟨rfl,
   save_csv_unnamed_index_omitted
     { indexName := none, index := [("2024-01-02")], cols := [(("Close"), [("101.0")])] }
     ("AAPL") ("1y") ("d") ("ts") none rfl⟩

/-- C8: load_csv_data and get_data_file_info report the not-found condition
exactly when the path does not exist, and on an existing path they read the
file and report its content and metadata. -/
theorem load_and_info_not_found_iff (fs : FileSystem) (p : String) :
    (isFnf (load_csv_data fs p) = true ↔ fs p = none)
  ∧ (isFnf (get_data_file_info fs p) = true ↔ fs p = none)
  ∧ (∀ entry : FileEntry, fs p = some entry →
       load_csv_data fs p = Except.ok entry.data
     ∧ get_data_file_info fs p = Except.ok
         { filename := basename p
           filepath := p
           size_bytes := entry.size_bytes
           created := entry.ctime
           rows := entry.data.len
           columns := entry.data.cols.length
           column_names := entry.data.cols.map Prod.fst }) := by
  refine ⟨?_, ?_, ?_⟩
  · cases hp : fs p <;> simp [load_csv_data, isFnf, hp]
  · cases hp : fs p <;> simp [get_data_file_info, isFnf, hp]
  · intro entry hp
    exact ⟨by simp [load_csv_data, hp], by simp [get_data_file_info, hp]⟩

/-- Witness for C8 on a one-file filesystem: a missing path reports
not-found, the present path reads its content. -/
theorem load_and_info_not_found_iff_witness :
    isFnf (load_csv_data fsOne ("missing.csv")) = true
  ∧ load_csv_data fsOne ("a.csv") = Except.ok entryA.data :=
  ⟨(load_and_info_not_found_iff fsOne ("missing.csv")).1.mpr rfl,
   ((load_and_info_not_found_iff fsOne ("a.csv")).2.2 entryA rfl).1⟩

/-- C9: the derived experiment seed is the process hash of the experiment
name combined with the base seed, taken modulo 2^32-1; it therefore lies
between 0 and 2^32-2 inclusive, and for a fixed process hash it depends only
on the name and the base seed. -/
theorem create_experiment_seed_spec (h : String → Int) (s1 s2 : SeedState)
    (name : String) (hs : s1.seed = s2.seed) :
    (create_experiment_seed h s1 name).1 =
      (h (name ++ ("_") ++ toString s1.seed)) % (2 ^ 32 - 1)
  ∧ 0 ≤ (create_experiment_seed h s1 name).1
  ∧ (create_experiment_seed h s1 name).1 ≤ 2 ^ 32 - 2
  ∧ (create_experiment_seed h s1 name).1 = (create_experiment_seed h s2 name).1 := by
  refine ⟨rfl, Int.emod_nonneg _ (by norm_num), ?_, ?_⟩
  · have hlt := Int.emod_lt_of_pos (h (name ++ ("_") ++ toString s1.seed))
      (show (0 : Int) < 2 ^ 32 - 1 by norm_num)
    have : (create_experiment_seed h s1 name).1 =
        (h (name ++ ("_") ++ toString s1.seed)) % (2 ^ 32 - 1) := rfl
    omega
  · simp [create_experiment_seed, hs]

/-- Witness for C9: two states sharing the base seed 7 derive the same
experiment seed, which is non-negative. -/
theorem create_experiment_seed_spec_witness :
    ({ seed := 7, experiment_seeds := [] } : SeedState).seed =
      ({ seed := 7, experiment_seeds := [(("a"), 1)] } : SeedState).seed
  ∧ 0 ≤ (create_experiment_seed hashLen { seed := 7, experiment_seeds := [] } ("x")).1
  ∧ (create_experiment_seed hashLen { seed := 7, experiment_seeds := [] } ("x")).1 =
      (create_experiment_seed hashLen { seed := 7, experiment_seeds := [(("a"), 1)] } ("x")).1 :=
  ⟨rfl,
   (create_experiment_seed_spec hashLen { seed := 7, experiment_seeds := [] }
     { seed := 7, experiment_seeds := [(("a"), 1)] } ("x") rfl).2.1,
   (create_experiment_seed_spec hashLen { seed := 7, experiment_seeds := [] }
     { seed := 7, experiment_seeds := [(("a"), 1)] } ("x") rfl).2.2.2⟩

/-- C3 (code bug, evaluated at the failing input): starting from an active
seed 123 and a non-empty experiment-seed mapping, the read-only
get_reproducible_config call re-runs the singleton initializer, so it
reports seed 42 and leaves the active seed reset to 42 with the mapping
cleared — the state is not left unchanged. -/
theorem get_reproducible_config_resets_state :
    get_reproducible_config
        (SeedManager_set_seed { seed := 42, experiment_seeds := [(("exp"), 7)] } 123)
        ("ph") ("d") =
      ((42, ("ph"), ("d")), { seed := 42, experiment_seeds := [] }) := rfl

/-- C4 counterexample: after a first lookup of the experiment x has stored
its derived seed, a second lookup still performs the hash derivation (its
derivation trace is non-empty), because the fallback argument of dict.get is
evaluated eagerly; the returned value is nevertheless the same. -/
theorem get_experiment_seed_recomputes :
    (get_experiment_seed_traced hashLen
        (get_experiment_seed_traced hashLen
          { seed := 42, experiment_seeds := [] } ("x")).2.1 ("x")).2.2 ≠ ([] : List String)
  ∧ (get_experiment_seed_traced hashLen
        (get_experiment_seed_traced hashLen
          { seed := 42, experiment_seeds := [] } ("x")).2.1 ("x")).1 =
      (get_experiment_seed_traced hashLen { seed := 42, experiment_seeds := [] } ("x")).1 := by
  refine ⟨by decide, rfl⟩

/-- C4 (amended): with the base seed unchanged, repeated experiment-seed
lookups are idempotent in their observable outcome — the second lookup
returns the value derived by the first and leaves the mapping unchanged —
but the derivation is recomputed on every lookup, not only on the first. -/
theorem get_experiment_seed_idempotent (h : String → Int) (s : SeedState)
    (name : String) :
    (get_experiment_seed h (get_experiment_seed h s name).2 name).1 =
      (get_experiment_seed h s name).1
  ∧ (get_experiment_seed h (get_experiment_seed h s name).2 name).2 =
      (get_experiment_seed h s name).2 := by
  have hins := dictInsert_of_get_eq name
    ((h (name ++ ("_") ++ toString s.seed)) % (2 ^ 32 - 1))
    (dictInsert name ((h (name ++ ("_") ++ toString s.seed)) % (2 ^ 32 - 1))
      s.experiment_seeds)
    (dictGet_dictInsert_self _ _ _)
  constructor <;>
    simp only [get_experiment_seed, create_experiment_seed, hins, dictGet_dictInsert_self]

/-- C6 counterexample: a DataLogger constructed with the name data_logger
appends to data_download_20260101.log, not to the name-derived path
data_logger_20260101.log the claim requires. -/
theorem dataLogger_log_file_ignores_name :
    DataLogger_log_file ("../logs") ("data_logger") ("20260101") ≠
      ("../logs") ++ ("/") ++ ("data_logger") ++ ("_") ++ ("20260101") ++ (".log") := by
  decide

/-- C6 (amended): loggers configured through setup_logging append to the
dated file log_dir/name_YYYYMMDD.log built from their construction name,
while DataLogger (and its DownloadLogger subclass) always appends to the
fixed dated file log_dir/data_download_YYYYMMDD.log, whatever name it was
constructed with. -/
theorem log_file_paths (log_dir name other today : String) :
    setup_logging_log_file log_dir name today =
      log_dir ++ ("/") ++ name ++ ("_") ++ today ++ (".log")
  ∧ DataLogger_log_file log_dir name today = DataLogger_log_file log_dir other today
  ∧ DataLogger_log_file log_dir name today =
      log_dir ++ ("/") ++ ("data_download_") ++ today ++ (".log") :=
  ⟨rfl, rfl, rfl⟩

/-- C7 counterexample: the array-library seed call is not wrapped in any
try/except, so the out-of-range seed 2^32 makes set_random_seed raise
instead of completing. -/
theorem set_random_seed_raises_out_of_range :
    isOkE (set_random_seed { tfOk := true, torchOk := true } (2 ^ 32)) = false := by
  decide

/-- C7 (amended): for every seed in the range the array library accepts,
set_random_seed never raises — TensorFlow and PyTorch backends that fail at
runtime are skipped silently — and it always sets the hash-seed and
deterministic-ops environment variables; an out-of-range seed, however,
raises from the unguarded array-library call. -/
theorem set_random_seed_in_range_ok (b : Backends) (seed : Int)
    (h1 : 0 ≤ seed) (h2 : seed < 2 ^ 32) :
    isOkE (set_random_seed b seed) = true
  ∧ envPairsOf (set_random_seed b seed) =
      some [(("PYTHONHASHSEED"), toString seed), (("TF_DETERMINISTIC_OPS"), ("1"))] := by
  have hok : np_random_seed_ok seed = true := by
    simp [np_random_seed_ok, h1]
    omega
  cases hb1 : b.tfOk <;> cases hb2 : b.torchOk <;>
    exact ⟨by simp [set_random_seed, hok, hb1, hb2, isOkE],
           by simp [set_random_seed, hok, hb1, hb2, envPairsOf, setEnvEffects]⟩

/-- Witness for C7: the in-range seed 42 with both optional backends failing
still completes normally. -/
theorem set_random_seed_in_range_ok_witness :
    ((0 : Int) ≤ 42 ∧ (42 : Int) < 2 ^ 32)
  ∧ isOkE (set_random_seed { tfOk := false, torchOk := false } 42) = true :=
  ⟨⟨by norm_num, by norm_num⟩,
   (set_random_seed_in_range_ok { tfOk := false, torchOk := false } 42
     (by norm_num) (by norm_num)).1⟩

/-- C1 counterexample: with the duplicated ticker list A, A and every fetch
succeeding, the batch has N = 2 tickers of which M = 0 fail, yet the result
dictionary has size 1, not N - M = 2, because the dict keys collapse the
duplicate. -/
theorem download_multiple_stocks_dup_counterexample :
    (download_multiple_stocks envAllOk [("A"), ("A")] ("1y") ("1d") ("d") ("ts") false).1.length = 1
  ∧ (([("A"), ("A")] : List String).filter (fun t => !(succeeds envAllOk t))).length = 0
  ∧ ([("A"), ("A")] : List String).length = 2 := by
  exact ⟨rfl, rfl, rfl⟩

/-- C1 (amended): for every list of pairwise-distinct tickers of which M
fail (empty fetch, raised fetch, or failed persistence),
download_multiple_stocks returns the dictionary holding exactly the
successful tickers with their fetched frames, in input order, of size
N - M; every per-ticker failure and a combined-Excel failure are caught
inside the call, which always returns normally. -/
theorem download_multiple_stocks_result (env : DownloadEnv)
    (tickers : List String) (period interval output_dir now_ts : String)
    (ex : Bool) (hnd : tickers.Nodup) :
    (download_multiple_stocks env tickers period interval output_dir now_ts ex).1 =
      (tickers.filter (fun t => succeeds env t)).map (fun t => (t, fetchedDf env t))
  ∧ (download_multiple_stocks env tickers period interval output_dir now_ts ex).1.length =
      tickers.length - (tickers.filter (fun t => !(succeeds env t))).length := by
  have h1 : (download_multiple_stocks env tickers period interval output_dir now_ts ex).1 =
      (tickers.filter (fun t => succeeds env t)).map (fun t => (t, fetchedDf env t)) := by
    rw [download_multiple_stocks_fst]
    simpa using foldl_batch_eq env period interval output_dir now_ts tickers ([], []) hnd
      (by intro t _; simp [keys])
  refine ⟨h1, ?_⟩
  rw [h1, List.length_map]
  have hsplit := length_filter_bool (fun t => succeeds env t) tickers
  simp only at hsplit
  omega

/-- Witness for C1 on the distinct ticker list A, B, C with B raising during
fetch: the result dictionary has size 3 - 1 = 2. -/
theorem download_multiple_stocks_result_witness :
    ([("A"), ("B"), ("C")] : List String).Nodup
  ∧ (download_multiple_stocks envBFails [("A"), ("B"), ("C")]
      ("1y") ("1d") ("d") ("ts") true).1.length = 2 :=
  ⟨by decide, by
    rw [(download_multiple_stocks_result envBFails [("A"), ("B"), ("C")]
      ("1y") ("1d") ("d") ("ts") true (by decide)).2]
    rfl⟩

/-- C2: a ticker whose fetch succeeds with zero rows makes
download_single_stock return None without raising, with exactly a start log
and a no-data warning as its effects — in particular no file write — and
the ticker never appears in the batch result dictionary. -/
theorem empty_fetch_soft_failure (env : DownloadEnv)
    (ticker period interval output_dir now_ts : String) (fn : Option String)
    (tickers : List String) (ex : Bool) (df : DataFrame)
    (hf : env.fetch ticker = FetchOutcome.success df)
    (he : df.index = []) :
    download_single_stock env ticker period interval fn output_dir now_ts =
      (none, [Effect.logStart ticker period interval, Effect.logWarnNoData ticker])
  ∧ ticker ∉ keys (download_multiple_stocks env tickers period interval
      output_dir now_ts ex).1 := by
  have hemp : df.isEmptyDf = true := by
    simp [DataFrame.isEmptyDf, he]
  constructor
  · unfold download_single_stock
    rw [hf]
    simp [hemp]
  · rw [download_multiple_stocks_fst]
    apply not_mem_keys_foldl env period interval output_dir now_ts ticker
    · unfold succeeds
      rw [hf]
      simp [hemp]
    · simp [keys]

/-- Witness for C2: the ticker E fetches an empty frame; its single download
returns None with a warning trace and E is absent from the batch result. -/
theorem empty_fetch_soft_failure_witness :
    (envEEmpty.fetch ("E") = FetchOutcome.success dfEmpty ∧ dfEmpty.index = [])
  ∧ download_single_stock envEEmpty ("E") ("1y") ("1d") none ("d") ("ts") =
      (none, [Effect.logStart ("E") ("1y") ("1d"), Effect.logWarnNoData ("E")])
  ∧ ("E") ∉ keys (download_multiple_stocks envEEmpty [("A"), ("E")]
      ("1y") ("1d") ("d") ("ts") true).1 :=
  ⟨⟨rfl, rfl⟩,
   (empty_fetch_soft_failure envEEmpty ("E") ("1y") ("1d") ("d") ("ts") none
     [("A"), ("E")] true dfEmpty rfl rfl).1,
   (empty_fetch_soft_failure envEEmpty ("E") ("1y") ("1d") ("d") ("ts") none
     [("A"), ("E")] true dfEmpty rfl rfl).2⟩

end VolPred
